import Mathlib

/-!
Shallow embedding of `src/climate_disasters_pipeline.py`, a pandas ETL
pipeline that loads temperature and disaster CSV extracts, cleans them,
aggregates them to annual granularity, outer-joins the two annual
aggregates, and computes summary statistics.

Modelling conventions:
* A pandas table is a `List` of row structures, in row order.
* A float cell that can be NaN/missing is `Option ℚ` (`none` = NaN/NaT);
  all arithmetic of the source is exact on the rational values, so ℚ is a
  faithful carrier for everything the claims quantify over.
* `pd.to_datetime(col, errors="coerce")` is modelled by giving the raw row
  the parse result directly as an `Option Date`: `none` stands for a
  missing or unparseable date (or one outside the pandas `Timestamp`
  range).  A successfully parsed `Timestamp` always has its year in
  `1677..2262` (the pandas `Timestamp` bounds), which the `Date` structure
  records as a proof field.
* `pd.to_numeric(col, errors="coerce")` is modelled on a `Cell` value:
  numeric cells (including numeric strings) are `Cell.num`, non-numeric
  strings are `Cell.str`, missing cells are `Cell.null`.
* pandas `groupby` (with the default `sort=True`) and the subsequent
  `sort_values` produce results keyed by the distinct keys in ascending
  order; `sortedKeys` models this.
-/

/-- A parsed pandas `Timestamp` date.  `pd.to_datetime(..., errors="coerce")`
only ever yields dates within the `Timestamp` bounds (years 1677..2262);
anything else becomes `NaT`, modelled as `none` at the use sites. -/
structure Date where
  year : Int
  month : Nat
  day : Nat
  year_bound : 1677 ≤ year ∧ year ≤ 2262

/-- A raw CSV cell as read by `pd.read_csv`: a numeric value (including a
numeric string, which `pd.to_numeric` parses), a non-numeric string, or a
missing value. -/
inductive Cell where
  | num (q : ℚ)
  | str (s : String)
  | null
deriving DecidableEq

/-- `pd.to_numeric(x, errors="coerce")`: numeric cells pass through,
non-numeric strings and missing values become NaN (`none`). -/
def to_numeric_coerce : Cell → Option ℚ
  | .num q => some q
  | .str _ => none
  | .null => none

/-- The distinct keys of a list in ascending order: the key order produced
by `groupby(..., sort=True)`, `merge(..., how="outer")` on unique keys and
`sort_values` in the source. -/
def sortedKeys (ys : List Int) : List Int :=
  ys.dedup.insertionSort (fun a b => a ≤ b)

/-- Mean of a list of rationals, `sum / len` (pandas `mean` over the
non-missing values of a group; groups are always nonempty). -/
def listMean (l : List ℚ) : ℚ := l.sum / (l.length : ℚ)

/-! ## Temperature loader (`load_temperature_data`) -/

/-- A row of the Gia Bách Nguyễn dataset after the `rename` step:
columns `year` and `TempF` (annual averages already in Fahrenheit).
Either may be missing in the raw CSV. -/
structure GiaRow where
  year : Option Int
  tempF : Option ℚ
deriving DecidableEq

/-- A row of the Berkeley Earth dataset: `dt` is the
`pd.to_datetime(temps_berk["dt"], errors="coerce")` parse result, and
`landOceanTempC` the `LandAndOceanAverageTemperature` column in °C
(possibly NaN). -/
structure BerkRow where
  dt : Option Date
  landOceanTempC : Option ℚ

/-- A row of the Josep Ferrer dataset: `eventDate` is the parsed
`EventDate`, and `temperatureF` the raw `TemperatureFahrenheit` cell
(coerced to numeric by the loader). -/
structure JosepRow where
  eventDate : Option Date
  temperatureF : Cell

/-- A row of the combined long-format table before the `dropna` step:
columns `year`, `TempF`, `source`, either of the first two possibly
missing. -/
structure RawTempRow where
  year : Option Int
  tempF : Option ℚ
  source : String

/-- A row of `temps_all` after `dropna(subset=["year", "TempF"])` and
`astype(int)`: both fields present. -/
structure TempRow where
  year : Int
  tempF : ℚ
  source : String
deriving DecidableEq

/-- The Gia source contributes its (renamed) columns directly, tagged
`source = "Gia_Bách_Nguyễn"`. -/
def giaToRaw (r : GiaRow) : RawTempRow :=
  { year := r.year, tempF := r.tempF, source := "Gia_Bách_Nguyễn" }

/-- The Berkeley source derives `year` from the parsed date
(`.dt.year`, NaN for NaT) and converts °C to °F by `C * 9 / 5 + 32`
(NaN propagates), tagged `source = "Berkeley_Earth"`. -/
def berkToRaw (r : BerkRow) : RawTempRow :=
  { year := r.dt.map (fun d => d.year)
    tempF := r.landOceanTempC.map (fun c => c * 9 / 5 + 32)
    source := "Berkeley_Earth" }

/-- The Josep source derives `year` from the parsed date and coerces the
temperature cell to numeric, tagged `source = "Josep_Ferrer"`. -/
def josepToRaw (r : JosepRow) : RawTempRow :=
  { year := r.eventDate.map (fun d => d.year)
    tempF := to_numeric_coerce r.temperatureF
    source := "Josep_Ferrer" }

/-- `dropna(subset=["year", "TempF"])` followed by
`temps_all["year"].astype(int)`: a row survives cleaning iff both fields
are present. -/
def cleanTemp (r : RawTempRow) : Option TempRow :=
  match r.year, r.tempF with
  | some y, some t => some { year := y, tempF := t, source := r.source }
  | _, _ => none

/-- The cleaned long-format `temps_all` table: concatenation of the three
sources followed by the `dropna` filter. -/
def temps_all (gs : List GiaRow) (bs : List BerkRow) (js : List JosepRow) :
    List TempRow :=
  ((gs.map giaToRaw ++ bs.map berkToRaw ++ js.map josepToRaw).map cleanTemp).reduceOption

/-- `temps_all.groupby("year", as_index=False)["TempF"].mean().sort_values("year")`:
one row per distinct year in ascending order, carrying the arithmetic mean
of `TempF` over the rows of that year. -/
def temps_annual (rows : List TempRow) : List (Int × ℚ) :=
  (sortedKeys (rows.map (fun r => r.year))).map
    (fun y => (y, listMean ((rows.filter (fun r => r.year == y)).map (fun r => r.tempF))))

/-! ## Disaster loader (`load_disaster_data`) -/

/-- A row of the Baris Dinçer dataset after renaming: `eventDate` is the
parsed `EventDate`, `disaster_type` the renamed `Var5` column (possibly
missing). -/
structure BarRow where
  eventDate : Option Date
  disaster_type : Option String

/-- A row of the Shreyansh Dangi dataset: `date` is the parsed `Date`
column, `disasterType` the `DisasterType` column (possibly missing). -/
structure ShreyRow where
  date : Option Date
  disasterType : Option String

/-- A standardized disaster row before the `dropna` step: columns
`event_date`, `year`, `disaster_type`, `source`. -/
structure RawDisRow where
  event_date : Option Date
  year : Option Int
  disaster_type : Option String
  source : String

/-- A row of `disasters_all` after `dropna(subset=["year", "disaster_type"])`
and `astype(int)` on `year`. -/
structure DisRow where
  event_date : Option Date
  year : Int
  disaster_type : String
  source : String

/-- The Baris source keeps `event_date`, derives `year` from it and uses the
renamed `Var5` as `disaster_type`, tagged `source = "Baris_Dincer"`. -/
def barToRaw (r : BarRow) : RawDisRow :=
  { event_date := r.eventDate
    year := r.eventDate.map (fun d => d.year)
    disaster_type := r.disaster_type
    source := "Baris_Dincer" }

/-- The Shreyansh source keeps `event_date` (parsed `Date` column), derives
`year` from it and copies `DisasterType`, tagged `source = "Shreyansh_Dangi"`. -/
def shreyToRaw (r : ShreyRow) : RawDisRow :=
  { event_date := r.date
    year := r.date.map (fun d => d.year)
    disaster_type := r.disasterType
    source := "Shreyansh_Dangi" }

/-- `dropna(subset=["year", "disaster_type"])` followed by the `astype(int)`
cast: a row survives cleaning iff year and type are present. -/
def cleanDis (r : RawDisRow) : Option DisRow :=
  match r.year, r.disaster_type with
  | some y, some t =>
      some { event_date := r.event_date, year := y, disaster_type := t, source := r.source }
  | _, _ => none

/-- The cleaned long-format `disasters_all` events table. -/
def disasters_all (bars : List BarRow) (shreys : List ShreyRow) : List DisRow :=
  ((bars.map barToRaw ++ shreys.map shreyToRaw).map cleanDis).reduceOption

/-- `disasters_all.groupby("year", as_index=False).size()` renamed to
`disaster_count` and sorted by year: one row per distinct year in ascending
order carrying the number of events of that year. -/
def disasters_per_year (events : List DisRow) : List (Int × Nat) :=
  (sortedKeys (events.map (fun r => r.year))).map
    (fun y => (y, events.countP (fun r => r.year == y)))

/-! ## Merger (`build_merged_dataset`) -/

/-- A row of the merged annual table: `year`, `TempF`, `disaster_count`,
the latter two possibly missing after the outer join. -/
structure MergedRow where
  year : Int
  tempF : Option ℚ
  disaster_count : Option ℚ
deriving DecidableEq

/-- First value associated to key `y` in an association list of
`(year, value)` pairs, as pandas row lookup by key. -/
def lookupYear (y : Int) (l : List (Int × ℚ)) : Option ℚ :=
  (l.find? (fun p => p.1 == y)).map (fun p => p.2)

/-- `pd.merge(temps_annual, disasters_per_year, on="year", how="outer")`
followed by `.sort_values("year")`, for inputs whose year keys are unique
(the only shape the pipeline produces): one row per year present in either
input, in ascending year order, with the matching value from each side or
NaN (`none`) where the side has no such year. -/
def build_merged_dataset (t d : List (Int × ℚ)) : List MergedRow :=
  (sortedKeys (t.map Prod.fst ++ d.map Prod.fst)).map
    (fun y => { year := y, tempF := lookupYear y t, disaster_count := lookupYear y d })

/-- The disaster aggregate as it enters the merge: its integer counts are
widened to the float (here: rational) column of the merged table. -/
def disasters_per_year_q (events : List DisRow) : List (Int × ℚ) :=
  (disasters_per_year events).map (fun p => (p.1, (p.2 : ℚ)))

/-! ## Summarizer (`compute_disaster_summary`, `disaster_type_counts`) -/

/-- The non-missing values of a column, in row order: what every pandas
reduction with its default `skipna=True` actually operates on. -/
def nonMissing (l : List (Option ℚ)) : List ℚ := l.reduceOption

/-- `Series.count()`: number of non-missing entries. -/
def seriesCount (l : List (Option ℚ)) : Nat := (nonMissing l).length

/-- `Series.sum()`: sum of the non-missing entries; `0.0` (not NaN) when
there are none, per the pandas default `min_count=0`. -/
def seriesSum (l : List (Option ℚ)) : ℚ := (nonMissing l).sum

/-- `Series.mean()`: arithmetic mean of the non-missing entries, NaN
(`none`) when there are none. -/
def seriesMean (l : List (Option ℚ)) : Option ℚ :=
  if seriesCount l = 0 then none else some (seriesSum l / (seriesCount l : ℚ))

/-- `Series.min()`: least non-missing entry, NaN when there are none. -/
def seriesMin (l : List (Option ℚ)) : Option ℚ := (nonMissing l).min?

/-- `Series.max()`: greatest non-missing entry, NaN when there are none. -/
def seriesMax (l : List (Option ℚ)) : Option ℚ := (nonMissing l).max?

/-- `Series.median()`: middle of the ascending-sorted non-missing entries
(mean of the two middles when their number is even), NaN when there are
none. -/
def medianOfSorted (s : List ℚ) : Option ℚ :=
  if s.length = 0 then none
  else if s.length % 2 = 1 then some (s.getD (s.length / 2) 0)
  else some ((s.getD (s.length / 2 - 1) 0 + s.getD (s.length / 2) 0) / 2)

def seriesMedian (l : List (Option ℚ)) : Option ℚ :=
  medianOfSorted ((nonMissing l).insertionSort (fun a b => a ≤ b))

/-- The square of `Series.std()` (sample variance, `ddof=1`): NaN when
fewer than two entries are non-missing, else the sum of squared deviations
from the mean divided by `n - 1`.  The reported standard deviation is the
nonnegative square root of this value; it is kept squared here because the
root of a rational is in general irrational, and it is NaN exactly when
this value is NaN (the variance is nonnegative, so the root itself never
introduces a NaN). -/
def seriesStdSq (l : List (Option ℚ)) : Option ℚ :=
  let v := nonMissing l
  if v.length ≤ 1 then none
  else some (((v.map (fun x => (x - listMean v) ^ 2)).sum) / ((v.length : ℚ) - 1))

/-- The summary dict returned by `compute_disaster_summary`: seven float
entries keyed `Count, Mean, StdDev, Min, Median, Max, Sum` (the `StdDev`
float is represented by its square, see `seriesStdSq`).  `none` models a
NaN float. -/
structure DisasterSummary where
  Count : Option ℚ
  Mean : Option ℚ
  StdDevSq : Option ℚ
  Min : Option ℚ
  Median : Option ℚ
  Max : Option ℚ
  Sum : Option ℚ
deriving DecidableEq

/-- `compute_disaster_summary(merged)`: the seven reductions of the
`disaster_count` column.  `float(...)` is the identity on these values
(each reduction already yields a float scalar); `count` and `sum` always
yield finite numbers, the other five are NaN on degenerate input. -/
def compute_disaster_summary (merged : List MergedRow) : DisasterSummary :=
  let dc := merged.map (fun r => r.disaster_count)
  { Count := some ((seriesCount dc : ℚ))
    Mean := seriesMean dc
    StdDevSq := seriesStdSq dc
    Min := seriesMin dc
    Median := seriesMedian dc
    Max := seriesMax dc
    Sum := some (seriesSum dc) }

/-- Descending-count order on `(disaster_type, count)` pairs, the order of
`value_counts()`. -/
def countGE (a b : String × Nat) : Prop := b.2 ≤ a.2

instance : DecidableRel countGE := fun a b => inferInstanceAs (Decidable (b.2 ≤ a.2))

instance : IsTotal (String × Nat) countGE :=
  ⟨fun a b => (Nat.le_total b.2 a.2).imp (fun h => h) (fun h => h)⟩

instance : IsTrans (String × Nat) countGE :=
  ⟨fun _ _ _ h₁ h₂ => Nat.le_trans h₂ h₁⟩

/-- `disasters_all["disaster_type"].value_counts()`: each distinct
`disaster_type` with the number of events carrying it, in descending
count order (stable on ties). -/
def disaster_type_counts (events : List DisRow) : List (String × Nat) :=
  (((events.map (fun r => r.disaster_type)).dedup).map
      (fun t => (t, events.countP (fun r => r.disaster_type == t)))).insertionSort countGE

/-! ## Helper lemmas about the embedding -/

theorem mem_sortedKeys {y : Int} {ys : List Int} : y ∈ sortedKeys ys ↔ y ∈ ys := by
  unfold sortedKeys
  rw [List.mem_insertionSort, List.mem_dedup]

theorem nodup_sortedKeys (ys : List Int) : (sortedKeys ys).Nodup :=
  ((List.perm_insertionSort _ _).nodup_iff).mpr ys.nodup_dedup

theorem sorted_le_sortedKeys (ys : List Int) :
    (sortedKeys ys).Sorted (fun a b => a ≤ b) :=
  List.sorted_insertionSort _ _

theorem sorted_lt_sortedKeys (ys : List Int) :
    (sortedKeys ys).Sorted (fun a b => a < b) :=
  List.Sorted.lt_of_le (sorted_le_sortedKeys ys) (nodup_sortedKeys ys)

theorem find?_keyMap_of_mem {β : Type} (m : Int → β) {y : Int} :
    ∀ {keys : List Int}, y ∈ keys →
      (keys.map (fun k => (k, m k))).find? (fun p => p.1 == y) = some (y, m y) := by
  intro keys h
  induction keys with
  | nil => cases h
  | cons k ks ih =>
    by_cases hk : k = y
    · subst hk
      rw [List.map_cons, List.find?_cons_of_pos]
      simp
    · have hmem : y ∈ ks := by
        rcases List.mem_cons.mp h with h1 | h1
        · exact absurd h1.symm hk
        · exact h1
      rw [List.map_cons, List.find?_cons_of_neg, ih hmem]
      simp [hk]

theorem find?_keyMap_of_not_mem {β : Type} (m : Int → β) {y : Int} {keys : List Int}
    (h : y ∉ keys) :
    (keys.map (fun k => (k, m k))).find? (fun p => p.1 == y) = none := by
  apply List.find?_eq_none.mpr
  intro p hp
  simp only [List.mem_map] at hp
  obtain ⟨k, hk, rfl⟩ := hp
  intro hbeq
  have hky : k = y := by simpa using hbeq
  subst hky
  exact h hk

theorem lookupYear_keyMap_of_mem (m : Int → ℚ) {y : Int} {keys : List Int}
    (h : y ∈ keys) :
    lookupYear y (keys.map (fun k => (k, m k))) = some (m y) := by
  unfold lookupYear
  rw [find?_keyMap_of_mem m h]
  rfl

theorem lookupYear_eq_none {y : Int} {l : List (Int × ℚ)} :
    lookupYear y l = none ↔ y ∉ l.map Prod.fst := by
  unfold lookupYear
  rw [Option.map_eq_none']
  rw [List.find?_eq_none]
  constructor
  · intro h hy
    obtain ⟨p, hp, hfst⟩ := List.mem_map.mp hy
    exact h p hp (by simp [hfst])
  · intro h p hp hpy
    exact h (List.mem_map.mpr ⟨p, hp, by simpa using hpy⟩)

theorem temps_annual_keys (rows : List TempRow) :
    (temps_annual rows).map Prod.fst = sortedKeys (rows.map (fun r => r.year)) := by
  unfold temps_annual
  rw [List.map_map]
  simp [Function.comp_def]

theorem disasters_per_year_keys (events : List DisRow) :
    (disasters_per_year events).map Prod.fst = sortedKeys (events.map (fun r => r.year)) := by
  unfold disasters_per_year
  rw [List.map_map]
  simp [Function.comp_def]

theorem build_merged_dataset_keys (t d : List (Int × ℚ)) :
    (build_merged_dataset t d).map (fun r => r.year) =
      sortedKeys (t.map Prod.fst ++ d.map Prod.fst) := by
  unfold build_merged_dataset
  rw [List.map_map]
  simp [Function.comp_def]

theorem cleanTemp_eq_none {r : RawTempRow} (h : r.year = none ∨ r.tempF = none) :
    cleanTemp r = none := by
  obtain ⟨oy, ot, s⟩ := r
  rcases h with h | h
  · simp only at h
    subst h
    cases ot <;> rfl
  · simp only at h
    subst h
    cases oy <;> rfl

theorem cleanTemp_some {r : RawTempRow} {c : TempRow} (h : cleanTemp r = some c) :
    r.year = some c.year ∧ r.tempF = some c.tempF ∧ r.source = c.source := by
  obtain ⟨oy, ot, s⟩ := r
  cases oy with
  | none => simp [cleanTemp] at h
  | some y =>
    cases ot with
    | none => simp [cleanTemp] at h
    | some t =>
      obtain rfl : ({ year := y, tempF := t, source := s } : TempRow) = c := by
        simpa [cleanTemp] using h
      exact ⟨rfl, rfl, rfl⟩

theorem cleanDis_eq_none {r : RawDisRow} (h : r.year = none ∨ r.disaster_type = none) :
    cleanDis r = none := by
  obtain ⟨e, oy, ot, s⟩ := r
  rcases h with h | h
  · simp only at h
    subst h
    cases ot <;> rfl
  · simp only at h
    subst h
    cases oy <;> rfl

theorem cleanDis_some {r : RawDisRow} {c : DisRow} (h : cleanDis r = some c) :
    r.event_date = c.event_date ∧ r.year = some c.year ∧
      r.disaster_type = some c.disaster_type ∧ r.source = c.source := by
  obtain ⟨e, oy, ot, s⟩ := r
  cases oy with
  | none => simp [cleanDis] at h
  | some y =>
    cases ot with
    | none => simp [cleanDis] at h
    | some t =>
      obtain rfl : ({ event_date := e, year := y, disaster_type := t, source := s } : DisRow)
          = c := by
        simpa [cleanDis] using h
      exact ⟨rfl, rfl, rfl, rfl⟩

theorem mem_temps_all {gs : List GiaRow} {bs : List BerkRow} {js : List JosepRow}
    {c : TempRow} :
    c ∈ temps_all gs bs js ↔
      ((∃ g ∈ gs, cleanTemp (giaToRaw g) = some c) ∨
       (∃ b ∈ bs, cleanTemp (berkToRaw b) = some c) ∨
       (∃ j ∈ js, cleanTemp (josepToRaw j) = some c)) := by
  unfold temps_all
  rw [List.reduceOption_mem_iff]
  simp [List.mem_map, List.mem_append, or_assoc]

theorem mem_disasters_all {bars : List BarRow} {shreys : List ShreyRow} {c : DisRow} :
    c ∈ disasters_all bars shreys ↔
      ((∃ b ∈ bars, cleanDis (barToRaw b) = some c) ∨
       (∃ s ∈ shreys, cleanDis (shreyToRaw s) = some c)) := by
  unfold disasters_all
  rw [List.reduceOption_mem_iff]
  simp [List.mem_map, List.mem_append]

theorem nonMissing_eq_nil {l : List (Option ℚ)} (h : ∀ x ∈ l, x = none) :
    nonMissing l = [] := by
  induction l with
  | nil => rfl
  | cons a l ih =>
    have ha := h a (List.mem_cons_self a l)
    subst ha
    unfold nonMissing at ih ⊢
    rw [List.reduceOption_cons_of_none]
    exact ih (fun x hx => h x (List.mem_cons_of_mem _ hx))

theorem min?_spec {l : List ℚ} {x : ℚ} (h : l.min? = some x) :
    x ∈ l ∧ ∀ y ∈ l, x ≤ y := by
  refine ⟨List.min?_mem (fun a b => min_choice a b) h, ?_⟩
  intro y hy
  exact (List.le_min?_iff (fun a b c => le_min_iff) h).mp le_rfl y hy

theorem max?_spec {l : List ℚ} {x : ℚ} (h : l.max? = some x) :
    x ∈ l ∧ ∀ y ∈ l, y ≤ x := by
  refine ⟨List.max?_mem (fun a b => max_choice a b) h, ?_⟩
  intro y hy
  exact (List.max?_le_iff (fun a b c => max_le_iff) h).mp le_rfl y hy

theorem lookupYear_mem {y : Int} {q : ℚ} {l : List (Int × ℚ)}
    (h : lookupYear y l = some q) : (y, q) ∈ l := by
  unfold lookupYear at h
  cases hf : l.find? (fun p => p.1 == y) with
  | none => rw [hf] at h; cases h
  | some p =>
    rw [hf] at h
    have hp := List.mem_of_find?_eq_some hf
    have hpy : p.1 = y := by simpa using List.find?_some hf
    have hpq : p.2 = q := by simpa using h
    have : p = (y, q) := by
      cases p
      simp_all
    rwa [this] at hp

/-- The date "2020-03-01" of the Berkeley scenario reading. -/
def date20200301 : Date := ⟨2020, 3, 1, by decide⟩

/-- The date "2020-07-01" of the Berkeley scenario reading. -/
def date20200701 : Date := ⟨2020, 7, 1, by decide⟩

/-! ## Claim theorems -/

/-- C8: in every annual aggregate returned by `load_temperature_data` and
`load_disaster_data`, the year values are pairwise distinct and strictly
ascending in the returned row order. -/
theorem annual_aggregate_years_sorted_nodup (rows : List TempRow) (events : List DisRow) :
    ((temps_annual rows).map Prod.fst).Nodup ∧
    ((temps_annual rows).map Prod.fst).Sorted (fun a b => a < b) ∧
    ((disasters_per_year events).map Prod.fst).Nodup ∧
    ((disasters_per_year events).map Prod.fst).Sorted (fun a b => a < b) := by
  rw [temps_annual_keys, disasters_per_year_keys]
  exact ⟨nodup_sortedKeys _, sorted_lt_sortedKeys _, nodup_sortedKeys _,
    sorted_lt_sortedKeys _⟩

/-- C1: for annual aggregates with unique year keys, the merged table of
`build_merged_dataset` has strictly ascending (hence pairwise distinct)
years, contains a row for a year exactly when the year is present in
either input, and each row carries the matching input value on each side
or a missing value (`none`, never an implicit zero) when that side lacks
the year. -/
theorem build_merged_outer_join_spec (t d : List (Int × ℚ))
    (_ht : (t.map Prod.fst).Nodup) (_hd : (d.map Prod.fst).Nodup) :
    ((build_merged_dataset t d).map (fun r => r.year)).Sorted (fun a b => a < b) ∧
    (∀ y : Int, y ∈ (build_merged_dataset t d).map (fun r => r.year) ↔
        (y ∈ t.map Prod.fst ∨ y ∈ d.map Prod.fst)) ∧
    (∀ r ∈ build_merged_dataset t d,
      (r.year ∉ t.map Prod.fst → r.tempF = none) ∧
      (r.year ∉ d.map Prod.fst → r.disaster_count = none) ∧
      (∀ q : ℚ, r.tempF = some q → (r.year, q) ∈ t) ∧
      (∀ q : ℚ, r.disaster_count = some q → (r.year, q) ∈ d)) := by
  refine ⟨?_, ?_, ?_⟩
  · rw [build_merged_dataset_keys]
    exact sorted_lt_sortedKeys _
  · intro y
    rw [build_merged_dataset_keys, mem_sortedKeys, List.mem_append]
  · intro r hr
    unfold build_merged_dataset at hr
    obtain ⟨y, hy, rfl⟩ := List.mem_map.mp hr
    refine ⟨?_, ?_, ?_, ?_⟩
    · intro hnt
      exact lookupYear_eq_none.mpr hnt
    · intro hnd
      exact lookupYear_eq_none.mpr hnd
    · intro q hq
      exact lookupYear_mem hq
    · intro q hq
      exact lookupYear_mem hq

/-- Witness for C1 at the §8 scenario inputs: merging `{2020: 59}` with
`{2021: 3}` keeps both years, in order, with a missing value on the absent
side. -/
theorem build_merged_outer_join_spec_witness :
    (([((2020 : Int), (59 : ℚ))].map Prod.fst).Nodup ∧
      ([((2021 : Int), (3 : ℚ))].map Prod.fst).Nodup) ∧
    (((build_merged_dataset [(2020, 59)] [(2021, 3)]).map (fun r => r.year)).Sorted
        (fun a b => a < b) ∧
      (∀ y : Int, y ∈ (build_merged_dataset [(2020, 59)] [(2021, 3)]).map (fun r => r.year) ↔
        (y ∈ [((2020 : Int), (59 : ℚ))].map Prod.fst ∨
         y ∈ [((2021 : Int), (3 : ℚ))].map Prod.fst)) ∧
      (∀ r ∈ build_merged_dataset [(2020, 59)] [(2021, 3)],
        (r.year ∉ [((2020 : Int), (59 : ℚ))].map Prod.fst → r.tempF = none) ∧
        (r.year ∉ [((2021 : Int), (3 : ℚ))].map Prod.fst → r.disaster_count = none) ∧
        (∀ q : ℚ, r.tempF = some q → (r.year, q) ∈ [((2020 : Int), (59 : ℚ))]) ∧
        (∀ q : ℚ, r.disaster_count = some q → (r.year, q) ∈ [((2021 : Int), (3 : ℚ))]))) :=
  ⟨⟨by decide, by decide⟩,
    build_merged_outer_join_spec [(2020, 59)] [(2021, 3)] (by decide) (by decide)⟩

/-- C6: the annual disaster aggregate contains `(year, n)` exactly when the
cleaned events table has `n ≥ 1` events of that year; in particular a
`(year, 0)` row never occurs. -/
theorem disasters_per_year_spec (events : List DisRow) :
    (∀ (y : Int) (n : Nat), (y, n) ∈ disasters_per_year events ↔
        (events.countP (fun r => r.year == y) = n ∧ 1 ≤ n)) ∧
    (∀ y : Int, (y, 0) ∉ disasters_per_year events) := by
  have hmain : ∀ (y : Int) (n : Nat), (y, n) ∈ disasters_per_year events ↔
      (events.countP (fun r => r.year == y) = n ∧ 1 ≤ n) := by
    intro y n
    unfold disasters_per_year
    rw [List.mem_map]
    constructor
    · rintro ⟨k, hk, heq⟩
      have hky : k = y := congrArg Prod.fst heq
      subst hky
      have hcnt : events.countP (fun r => r.year == k) = n := congrArg Prod.snd heq
      refine ⟨hcnt, ?_⟩
      obtain ⟨r, hr, hry⟩ := List.mem_map.mp (mem_sortedKeys.mp hk)
      have hpos : 0 < events.countP (fun r2 => r2.year == k) :=
        List.countP_pos_iff.mpr ⟨r, hr, by simp [hry]⟩
      omega
    · rintro ⟨hcnt, hn⟩
      refine ⟨y, ?_, by rw [hcnt]⟩
      apply mem_sortedKeys.mpr
      have hpos : 0 < events.countP (fun r => r.year == y) := by omega
      obtain ⟨r, hr, hry⟩ := List.countP_pos_iff.mp hpos
      exact List.mem_map.mpr ⟨r, hr, by simpa using hry⟩
  refine ⟨hmain, ?_⟩
  intro y hy
  have := (hmain y 0).mp hy
  omega

/-- C10: every `disaster_count` in the annual disaster aggregate is a
positive integer (`≥ 1`); after the outer join a merged row's
`disaster_count` is either missing (the only representation of a year
with no events) or a positive integer. -/
theorem disaster_counts_positive (events : List DisRow) :
    (∀ p ∈ disasters_per_year events, 1 ≤ p.2) ∧
    (∀ (t : List (Int × ℚ)), ∀ r ∈ build_merged_dataset t (disasters_per_year_q events),
        r.disaster_count = none ∨ ∃ n : Nat, 1 ≤ n ∧ r.disaster_count = some ((n : ℚ))) := by
  have h1 : ∀ p ∈ disasters_per_year events, 1 ≤ p.2 := by
    intro p hp
    unfold disasters_per_year at hp
    obtain ⟨k, hk, rfl⟩ := List.mem_map.mp hp
    obtain ⟨r, hr, hry⟩ := List.mem_map.mp (mem_sortedKeys.mp hk)
    have hpos : 0 < events.countP (fun r2 => r2.year == k) :=
      List.countP_pos_iff.mpr ⟨r, hr, by simp [hry]⟩
    simpa using hpos
  refine ⟨h1, ?_⟩
  intro t r hr
  unfold build_merged_dataset at hr
  obtain ⟨y, hy, rfl⟩ := List.mem_map.mp hr
  show lookupYear y (disasters_per_year_q events) = none ∨ _
  cases hq : lookupYear y (disasters_per_year_q events) with
  | none => exact Or.inl rfl
  | some q =>
    right
    have hmem := lookupYear_mem hq
    unfold disasters_per_year_q at hmem
    obtain ⟨p, hp, heq⟩ := List.mem_map.mp hmem
    refine ⟨p.2, h1 p hp, ?_⟩
    have hq2 : (p.2 : ℚ) = q := congrArg Prod.snd heq
    show some q = some ((p.2 : ℚ))
    rw [hq2]

/-- Witness for C10 on a one-event pipeline run: the aggregate count for
2020 is the positive integer 1, and the merged row carries it as `some 1`. -/
theorem disaster_counts_positive_witness :
    1 ≤ (((2020 : Int), (1 : Nat))).2 ∧
    (({ year := 2020, tempF := none, disaster_count := some 1 } : MergedRow).disaster_count
        = none ∨
      ∃ n : Nat, 1 ≤ n ∧
        ({ year := 2020, tempF := none, disaster_count := some 1 } : MergedRow).disaster_count
          = some ((n : ℚ))) :=
  ⟨(disaster_counts_positive
      (disasters_all [{ eventDate := some date20200301, disaster_type := some "Flood" }] [])).1
      (2020, 1) (by decide),
   (disaster_counts_positive
      (disasters_all [{ eventDate := some date20200301, disaster_type := some "Flood" }] [])).2
      [] { year := 2020, tempF := none, disaster_count := some 1 } (by decide)⟩

/-- C4: if the year-2020 rows of the cleaned long table are exactly the two
converted Berkeley readings (10.0 °C on 2020-03-01 → 50.0 °F and 20.0 °C on
2020-07-01 → 68.0 °F, which is what the Berkeley loader produces for those
readings), then the annual temperature aggregate value for 2020 is
59.0 °F, the mean of the two. -/
theorem temps_annual_berkeley_2020_scenario (rows : List TempRow)
    (h : rows.filter (fun r => r.year == 2020) =
      [{ year := 2020, tempF := 50, source := "Berkeley_Earth" },
       { year := 2020, tempF := 68, source := "Berkeley_Earth" }]) :
    cleanTemp (berkToRaw { dt := some date20200301, landOceanTempC := some 10 }) =
      some { year := 2020, tempF := 50, source := "Berkeley_Earth" } ∧
    cleanTemp (berkToRaw { dt := some date20200701, landOceanTempC := some 20 }) =
      some { year := 2020, tempF := 68, source := "Berkeley_Earth" } ∧
    lookupYear 2020 (temps_annual rows) = some 59 := by
  refine ⟨?_, ?_, ?_⟩
  · norm_num [berkToRaw, cleanTemp, date20200301]
  · norm_num [berkToRaw, cleanTemp, date20200701]
  · have hmem : (2020 : Int) ∈ rows.map (fun r => r.year) := by
      have hfil : ({ year := 2020, tempF := 50, source := "Berkeley_Earth" } : TempRow) ∈
          rows.filter (fun r => r.year == 2020) := by
        rw [h]
        exact List.mem_cons_self _ _
      exact List.mem_map.mpr ⟨_, List.mem_of_mem_filter hfil, rfl⟩
    unfold temps_annual
    rw [lookupYear_keyMap_of_mem _ (mem_sortedKeys.mpr hmem), h]
    norm_num [listMean]

/-- Witness for C4 at the two-row cleaned table itself. -/
theorem temps_annual_berkeley_2020_scenario_witness :
    cleanTemp (berkToRaw { dt := some date20200301, landOceanTempC := some 10 }) =
      some { year := 2020, tempF := 50, source := "Berkeley_Earth" } ∧
    cleanTemp (berkToRaw { dt := some date20200701, landOceanTempC := some 20 }) =
      some { year := 2020, tempF := 68, source := "Berkeley_Earth" } ∧
    lookupYear 2020 (temps_annual
      [{ year := 2020, tempF := 50, source := "Berkeley_Earth" },
       { year := 2020, tempF := 68, source := "Berkeley_Earth" }]) = some 59 :=
  temps_annual_berkeley_2020_scenario _ (by rfl)

/-- Counterexample to C2 as stated: on a merged table whose
`disaster_count` column is entirely missing, the `Sum` entry of the
summary is the float `0.0` (pandas `sum` with its default `min_count=0`),
not NaN as the claim asserts for all six non-Count statistics. -/
theorem compute_disaster_summary_all_missing_sum_is_zero :
    (compute_disaster_summary
        [{ year := 2020, tempF := some 59, disaster_count := none }]).Sum = some 0 ∧
    some (0 : ℚ) ≠ (none : Option ℚ) :=
  ⟨rfl, by simp⟩

/-- C2 (amended): when the `disaster_count` column of the merged table is
entirely missing (including the zero-row table), `compute_disaster_summary`
returns Count = 0 and Sum = 0.0, with NaN for the five statistics Mean,
StdDev, Min, Median and Max, and is total (never raises). -/
theorem compute_disaster_summary_all_missing (m : List MergedRow)
    (h : ∀ r ∈ m, r.disaster_count = none) :
    compute_disaster_summary m =
      { Count := some 0, Mean := none, StdDevSq := none, Min := none,
        Median := none, Max := none, Sum := some 0 } := by
  have hnm : nonMissing (m.map (fun r => r.disaster_count)) = [] := by
    apply nonMissing_eq_nil
    intro x hx
    obtain ⟨r, hr, rfl⟩ := List.mem_map.mp hx
    exact h r hr
  simp [compute_disaster_summary, seriesMean, seriesStdSq, seriesMin, seriesMax,
    seriesMedian, medianOfSorted, seriesCount, seriesSum, hnm]

/-- Witness for C2 (amended) at a one-row all-missing table. -/
theorem compute_disaster_summary_all_missing_witness :
    compute_disaster_summary [{ year := 2020, tempF := some 59, disaster_count := none }] =
      { Count := some 0, Mean := none, StdDevSq := none, Min := none,
        Median := none, Max := none, Sum := some 0 } :=
  compute_disaster_summary_all_missing _ (by decide)

theorem temps_all_drop_gia {g : GiaRow} (hg : g.year = none ∨ g.tempF = none)
    (pre post : List GiaRow) (bs : List BerkRow) (js : List JosepRow) :
    temps_all (pre ++ g :: post) bs js = temps_all (pre ++ post) bs js := by
  have hnone : cleanTemp (giaToRaw g) = none := cleanTemp_eq_none hg
  unfold temps_all
  simp [List.map_append, List.reduceOption_append, hnone]

theorem temps_all_drop_berk {b : BerkRow} (hb : b.dt = none ∨ b.landOceanTempC = none)
    (gs : List GiaRow) (pre post : List BerkRow) (js : List JosepRow) :
    temps_all gs (pre ++ b :: post) js = temps_all gs (pre ++ post) js := by
  have hnone : cleanTemp (berkToRaw b) = none := by
    apply cleanTemp_eq_none
    rcases hb with h | h
    · exact Or.inl (by simp [berkToRaw, h])
    · exact Or.inr (by simp [berkToRaw, h])
  unfold temps_all
  simp [List.map_append, List.reduceOption_append, hnone]

theorem temps_all_drop_josep {j : JosepRow}
    (hj : j.eventDate = none ∨ to_numeric_coerce j.temperatureF = none)
    (gs : List GiaRow) (bs : List BerkRow) (pre post : List JosepRow) :
    temps_all gs bs (pre ++ j :: post) = temps_all gs bs (pre ++ post) := by
  have hnone : cleanTemp (josepToRaw j) = none := by
    apply cleanTemp_eq_none
    rcases hj with h | h
    · exact Or.inl (by simp [josepToRaw, h])
    · exact Or.inr (by simp [josepToRaw, h])
  unfold temps_all
  simp [List.map_append, List.reduceOption_append, hnone]

theorem disasters_all_drop_bar {b : BarRow}
    (hb : b.eventDate = none ∨ b.disaster_type = none)
    (pre post : List BarRow) (shreys : List ShreyRow) :
    disasters_all (pre ++ b :: post) shreys = disasters_all (pre ++ post) shreys := by
  have hnone : cleanDis (barToRaw b) = none := by
    apply cleanDis_eq_none
    rcases hb with h | h
    · exact Or.inl (by simp [barToRaw, h])
    · exact Or.inr (by simp [barToRaw, h])
  unfold disasters_all
  simp [List.map_append, List.reduceOption_append, hnone]

theorem disasters_all_drop_shrey {s : ShreyRow}
    (hs : s.date = none ∨ s.disasterType = none)
    (bars : List BarRow) (pre post : List ShreyRow) :
    disasters_all bars (pre ++ s :: post) = disasters_all bars (pre ++ post) := by
  have hnone : cleanDis (shreyToRaw s) = none := by
    apply cleanDis_eq_none
    rcases hs with h | h
    · exact Or.inl (by simp [shreyToRaw, h])
    · exact Or.inr (by simp [shreyToRaw, h])
  unfold disasters_all
  simp [List.map_append, List.reduceOption_append, hnone]

/-- C5: a source row with an unparseable date, a non-numeric temperature or
a missing disaster category is dropped at the filter step (the loaders are
total, so nothing is raised) and leaves every output table of the pipeline
unchanged wherever it is inserted — it appears in no cleaned table and in
no aggregate, not even as a zero or NaN row. -/
theorem malformed_rows_dropped :
    (∀ (g : GiaRow), (g.year = none ∨ g.tempF = none) →
      ∀ (pre post : List GiaRow) (bs : List BerkRow) (js : List JosepRow),
        temps_all (pre ++ g :: post) bs js = temps_all (pre ++ post) bs js ∧
        temps_annual (temps_all (pre ++ g :: post) bs js) =
          temps_annual (temps_all (pre ++ post) bs js)) ∧
    (∀ (b : BerkRow), (b.dt = none ∨ b.landOceanTempC = none) →
      ∀ (gs : List GiaRow) (pre post : List BerkRow) (js : List JosepRow),
        temps_all gs (pre ++ b :: post) js = temps_all gs (pre ++ post) js ∧
        temps_annual (temps_all gs (pre ++ b :: post) js) =
          temps_annual (temps_all gs (pre ++ post) js)) ∧
    (∀ (j : JosepRow), (j.eventDate = none ∨ to_numeric_coerce j.temperatureF = none) →
      ∀ (gs : List GiaRow) (bs : List BerkRow) (pre post : List JosepRow),
        temps_all gs bs (pre ++ j :: post) = temps_all gs bs (pre ++ post) ∧
        temps_annual (temps_all gs bs (pre ++ j :: post)) =
          temps_annual (temps_all gs bs (pre ++ post))) ∧
    (∀ (b : BarRow), (b.eventDate = none ∨ b.disaster_type = none) →
      ∀ (pre post : List BarRow) (shreys : List ShreyRow),
        disasters_all (pre ++ b :: post) shreys = disasters_all (pre ++ post) shreys ∧
        disasters_per_year (disasters_all (pre ++ b :: post) shreys) =
          disasters_per_year (disasters_all (pre ++ post) shreys) ∧
        disaster_type_counts (disasters_all (pre ++ b :: post) shreys) =
          disaster_type_counts (disasters_all (pre ++ post) shreys)) ∧
    (∀ (s : ShreyRow), (s.date = none ∨ s.disasterType = none) →
      ∀ (bars : List BarRow) (pre post : List ShreyRow),
        disasters_all bars (pre ++ s :: post) = disasters_all bars (pre ++ post) ∧
        disasters_per_year (disasters_all bars (pre ++ s :: post)) =
          disasters_per_year (disasters_all bars (pre ++ post)) ∧
        disaster_type_counts (disasters_all bars (pre ++ s :: post)) =
          disaster_type_counts (disasters_all bars (pre ++ post))) := by
  refine ⟨?_, ?_, ?_, ?_, ?_⟩
  · intro g hg pre post bs js
    have hbase := temps_all_drop_gia hg pre post bs js
    exact ⟨hbase, congrArg temps_annual hbase⟩
  · intro b hb gs pre post js
    have hbase := temps_all_drop_berk hb gs pre post js
    exact ⟨hbase, congrArg temps_annual hbase⟩
  · intro j hj gs bs pre post
    have hbase := temps_all_drop_josep hj gs bs pre post
    exact ⟨hbase, congrArg temps_annual hbase⟩
  · intro b hb pre post shreys
    have hbase := disasters_all_drop_bar hb pre post shreys
    exact ⟨hbase, congrArg disasters_per_year hbase, congrArg disaster_type_counts hbase⟩
  · intro s hs bars pre post
    have hbase := disasters_all_drop_shrey hs bars pre post
    exact ⟨hbase, congrArg disasters_per_year hbase, congrArg disaster_type_counts hbase⟩

/-- Witness for C5: inserting a Gia row with a missing year changes no
cleaned table and no aggregate. -/
theorem malformed_rows_dropped_witness :
    temps_all [{ year := none, tempF := some 50 }] [] [] = temps_all [] [] [] ∧
    temps_annual (temps_all [{ year := none, tempF := some 50 }] [] []) =
      temps_annual (temps_all [] [] []) :=
  malformed_rows_dropped.1 { year := none, tempF := some 50 } (Or.inl rfl) [] [] [] []

/-- C7: `disaster_type_counts` maps each distinct disaster type to the
exact number of events carrying it ( a pair `(t, n)` occurs exactly when
`n ≥ 1` is the count of type `t`), in descending count order, and the
counts sum to the total number of cleaned events. -/
theorem disaster_type_counts_spec (events : List DisRow) :
    (∀ (t : String) (n : Nat), (t, n) ∈ disaster_type_counts events ↔
        (events.countP (fun r => r.disaster_type == t) = n ∧ 1 ≤ n)) ∧
    ((disaster_type_counts events).map Prod.snd).Sorted (fun a b => b ≤ a) ∧
    ((disaster_type_counts events).map Prod.snd).sum = events.length := by
  refine ⟨?_, ?_, ?_⟩
  · intro t n
    unfold disaster_type_counts
    rw [List.mem_insertionSort, List.mem_map]
    constructor
    · rintro ⟨u, hu, heq⟩
      have hut : u = t := congrArg Prod.fst heq
      subst hut
      have hcnt : events.countP (fun r => r.disaster_type == u) = n :=
        congrArg Prod.snd heq
      refine ⟨hcnt, ?_⟩
      obtain ⟨r, hr, hru⟩ := List.mem_map.mp (List.mem_dedup.mp hu)
      have hpos : 0 < events.countP (fun r2 => r2.disaster_type == u) :=
        List.countP_pos_iff.mpr ⟨r, hr, by simp [hru]⟩
      omega
    · rintro ⟨hcnt, hn⟩
      refine ⟨t, ?_, by rw [hcnt]⟩
      apply List.mem_dedup.mpr
      have hpos : 0 < events.countP (fun r => r.disaster_type == t) := by omega
      obtain ⟨r, hr, hrt⟩ := List.countP_pos_iff.mp hpos
      exact List.mem_map.mpr ⟨r, hr, by simpa using hrt⟩
  · have hs := List.sorted_insertionSort countGE
      (((events.map (fun r => r.disaster_type)).dedup).map
        (fun t => (t, events.countP (fun r => r.disaster_type == t))))
    unfold disaster_type_counts
    exact List.pairwise_map.mpr (hs.imp (fun h => h))
  · have hperm : List.Perm (disaster_type_counts events)
        (((events.map (fun r => r.disaster_type)).dedup).map
          (fun t => (t, events.countP (fun r => r.disaster_type == t)))) :=
      List.perm_insertionSort _ _
    rw [(hperm.map Prod.snd).sum_eq, List.map_map]
    have hfun : ∀ t : String,
        events.countP (fun r => r.disaster_type == t) =
          (events.map (fun r => r.disaster_type)).count t := by
      intro t
      rw [List.count, List.countP_map]
      rfl
    have hrw : (Prod.snd ∘ fun t =>
          (t, events.countP (fun r => r.disaster_type == t))) =
        (fun t => (events.map (fun r => r.disaster_type)).count t) := by
      funext t
      exact hfun t
    rw [hrw, List.sum_map_count_dedup_eq_length, List.length_map]

/-- Witness for C7 at the §8 scenario (two Flood events and one Storm
event): Flood maps to 2, Storm to 1, Flood listed first, counts summing
to 3.  The membership facts are obtained through the characterization of
`disaster_type_counts` proved above. -/
theorem disaster_type_counts_spec_witness :
    (("Flood", 2) ∈ disaster_type_counts
        [{ event_date := some date20200301, year := 2020, disaster_type := "Flood",
           source := "Baris_Dincer" },
         { event_date := some date20200301, year := 2020, disaster_type := "Flood",
           source := "Baris_Dincer" },
         { event_date := some date20200301, year := 2021, disaster_type := "Storm",
           source := "Baris_Dincer" }]) ∧
    (("Storm", 1) ∈ disaster_type_counts
        [{ event_date := some date20200301, year := 2020, disaster_type := "Flood",
           source := "Baris_Dincer" },
         { event_date := some date20200301, year := 2020, disaster_type := "Flood",
           source := "Baris_Dincer" },
         { event_date := some date20200301, year := 2021, disaster_type := "Storm",
           source := "Baris_Dincer" }]) :=
  ⟨((disaster_type_counts_spec _).1 "Flood" 2).mpr ⟨by decide, by decide⟩,
   ((disaster_type_counts_spec _).1 "Storm" 1).mpr ⟨by decide, by decide⟩⟩

/-- Counterexample to C9 as stated: the Gia source's `Year` column is not
range-checked by the cleaning step, so a (synthetic) year 10000 survives
into the cleaned table, outside the 4-digit range. -/
theorem temps_all_gia_year_out_of_range :
    temps_all [{ year := some 10000, tempF := some 50 }] [] [] =
      [{ year := 10000, tempF := 50, source := "Gia_Bách_Nguyễn" }] ∧
    ¬ ((10000 : Int) ≤ 9999) :=
  ⟨rfl, by decide⟩

/-- C9 (amended): every year that reaches a cleaned table through a parsed
date (the Berkeley and Josep temperature sources and both disaster
sources) lies in the pandas `Timestamp` range 1677..2262 and hence in the
4-digit range; the Gia source's `Year` column is passed through unchecked,
so its years — and with them all cleaned years — are 4-digit exactly when
the Gia input years are. -/
theorem cleaned_years_four_digit
    (gs : List GiaRow) (bs : List BerkRow) (js : List JosepRow)
    (bars : List BarRow) (shreys : List ShreyRow)
    (hg : ∀ g ∈ gs, ∀ y : Int, g.year = some y → 1000 ≤ y ∧ y ≤ 9999) :
    (∀ r ∈ temps_all gs bs js, 1000 ≤ r.year ∧ r.year ≤ 9999) ∧
    (∀ r ∈ disasters_all bars shreys, 1000 ≤ r.year ∧ r.year ≤ 9999) := by
  constructor
  · intro c hc
    rcases mem_temps_all.mp hc with ⟨g, hgmem, hcl⟩ | ⟨b, hbmem, hcl⟩ | ⟨j, hjmem, hcl⟩
    · exact hg g hgmem c.year (cleanTemp_some hcl).1
    · have hy := (cleanTemp_some hcl).1
      simp only [berkToRaw] at hy
      obtain ⟨d, hd, hdy⟩ := Option.map_eq_some'.mp hy
      have hb := d.year_bound
      omega
    · have hy := (cleanTemp_some hcl).1
      simp only [josepToRaw] at hy
      obtain ⟨d, hd, hdy⟩ := Option.map_eq_some'.mp hy
      have hb := d.year_bound
      omega
  · intro c hc
    rcases mem_disasters_all.mp hc with ⟨b, hbmem, hcl⟩ | ⟨s, hsmem, hcl⟩
    · have hy := (cleanDis_some hcl).2.1
      simp only [barToRaw] at hy
      obtain ⟨d, hd, hdy⟩ := Option.map_eq_some'.mp hy
      have hb := d.year_bound
      omega
    · have hy := (cleanDis_some hcl).2.1
      simp only [shreyToRaw] at hy
      obtain ⟨d, hd, hdy⟩ := Option.map_eq_some'.mp hy
      have hb := d.year_bound
      omega

/-- Witness for C9 (amended) on a small run with a 4-digit Gia year and
one date-derived disaster event. -/
theorem cleaned_years_four_digit_witness :
    (∀ g ∈ ([{ year := some 2020, tempF := some 59 }] : List GiaRow),
        ∀ y : Int, g.year = some y → 1000 ≤ y ∧ y ≤ 9999) ∧
    ((∀ r ∈ temps_all [{ year := some 2020, tempF := some 59 }] [] [],
        1000 ≤ r.year ∧ r.year ≤ 9999) ∧
     (∀ r ∈ disasters_all
          [{ eventDate := some date20200301, disaster_type := some "Flood" }] [],
        1000 ≤ r.year ∧ r.year ≤ 9999)) := by
  have hg : ∀ g ∈ ([{ year := some 2020, tempF := some 59 }] : List GiaRow),
      ∀ y : Int, g.year = some y → 1000 ≤ y ∧ y ≤ 9999 := by
    intro g hgm y hy
    simp only [List.mem_singleton] at hgm
    subst hgm
    simp only [Option.some.injEq] at hy
    omega
  exact ⟨hg, cleaned_years_four_digit _ _ _ _ _ hg⟩

theorem medianOfSorted_nil_iff {s : List ℚ} :
    medianOfSorted s = none ↔ s = [] := by
  unfold medianOfSorted
  by_cases h0 : s.length = 0
  · simp [h0, List.length_eq_zero.mp h0]
  · rw [if_neg h0]
    constructor
    · intro hcontr
      by_cases hodd : s.length % 2 = 1 <;> simp [hodd] at hcontr
    · intro hnil
      exact absurd (by rw [hnil]; rfl) h0

theorem medianOfSorted_between {s : List ℚ} (hsorted : s.Sorted (fun a b => a ≤ b))
    {x : ℚ} (hx : medianOfSorted s = some x) :
    (∃ a ∈ s, a ≤ x) ∧ (∃ b ∈ s, x ≤ b) := by
  unfold medianOfSorted at hx
  by_cases h0 : s.length = 0
  · rw [if_pos h0] at hx
    cases hx
  · rw [if_neg h0] at hx
    by_cases hodd : s.length % 2 = 1
    · rw [if_pos hodd] at hx
      have hrange : s.length / 2 < s.length :=
        Nat.div_lt_self (Nat.pos_of_ne_zero h0) (by omega)
      have hget : s.getD (s.length / 2) 0 = s.get ⟨s.length / 2, hrange⟩ := by
        rw [List.getD_eq_getElem?_getD, List.getElem?_eq_getElem hrange]
        rfl
      have hxval : s.get ⟨s.length / 2, hrange⟩ = x := by
        rw [hget] at hx
        exact Option.some.inj hx
      have hmem : s.get ⟨s.length / 2, hrange⟩ ∈ s := s.get_mem _ _
      rw [hxval] at hmem
      exact ⟨⟨x, hmem, le_rfl⟩, ⟨x, hmem, le_rfl⟩⟩
    · rw [if_neg hodd] at hx
      have h2 : 2 ≤ s.length := by omega
      have hk1 : s.length / 2 - 1 < s.length := by omega
      have hk : s.length / 2 < s.length := by omega
      have hget1 : s.getD (s.length / 2 - 1) 0 = s.get ⟨s.length / 2 - 1, hk1⟩ := by
        rw [List.getD_eq_getElem?_getD, List.getElem?_eq_getElem hk1]
        rfl
      have hget2 : s.getD (s.length / 2) 0 = s.get ⟨s.length / 2, hk⟩ := by
        rw [List.getD_eq_getElem?_getD, List.getElem?_eq_getElem hk]
        rfl
      rw [hget1, hget2] at hx
      have hxval : (s.get ⟨s.length / 2 - 1, hk1⟩ + s.get ⟨s.length / 2, hk⟩) / 2 = x :=
        Option.some.inj hx
      have hab : s.get ⟨s.length / 2 - 1, hk1⟩ ≤ s.get ⟨s.length / 2, hk⟩ := by
        apply hsorted.rel_get_of_lt
        show s.length / 2 - 1 < s.length / 2
        omega
      refine ⟨⟨s.get ⟨s.length / 2 - 1, hk1⟩, s.get_mem _ _, by rw [← hxval]; linarith⟩,
        ⟨s.get ⟨s.length / 2, hk⟩, s.get_mem _ _, by rw [← hxval]; linarith⟩⟩

/-- C3: the seven statistics of `compute_disaster_summary` are computed
over the `disaster_count` column with missing values excluded (`v` is the
non-missing sublist): Count counts the non-missing rows, Sum is their sum,
Mean their arithmetic mean (NaN when there are none) with
Sum / Count = Mean whenever Count > 0, Min/Max are least/greatest
non-missing entries (defined whenever one exists), the Median is defined
exactly on nonempty data, lies between members of the data, and equals
the median of the non-missing entries: for every ascending sorted
arrangement of them, the middle element when their number is odd and the
mean of the two middle elements when it is even; and the squared standard
deviation follows the sample (n-1 denominator) convention, NaN for fewer
than two data points. -/
theorem compute_disaster_summary_stats_spec (m : List MergedRow) (v : List ℚ)
    (hv : v = nonMissing (m.map (fun r => r.disaster_count))) :
    ((compute_disaster_summary m).Count =
        some ((m.countP (fun r => r.disaster_count.isSome) : ℚ)) ∧
      (compute_disaster_summary m).Sum = some v.sum) ∧
    ((v = [] → (compute_disaster_summary m).Mean = none) ∧
      (v ≠ [] → (compute_disaster_summary m).Mean =
        some (v.sum / (v.length : ℚ))) ∧
      (∀ su c me : ℚ, (compute_disaster_summary m).Sum = some su →
        (compute_disaster_summary m).Count = some c →
        (compute_disaster_summary m).Mean = some me → 0 < c → su / c = me)) ∧
    ((∀ x : ℚ, (compute_disaster_summary m).Min = some x →
        x ∈ v ∧ ∀ y ∈ v, x ≤ y) ∧
      (∀ x : ℚ, (compute_disaster_summary m).Max = some x →
        x ∈ v ∧ ∀ y ∈ v, y ≤ x) ∧
      (v ≠ [] → ((compute_disaster_summary m).Min ≠ none ∧
        (compute_disaster_summary m).Max ≠ none))) ∧
    (((compute_disaster_summary m).Median = none ↔ v = []) ∧
      (∀ x : ℚ, (compute_disaster_summary m).Median = some x →
        (∃ a ∈ v, a ≤ x) ∧ (∃ b ∈ v, x ≤ b)) ∧
      (∀ s : List ℚ, List.Perm s v → s.Sorted (fun a b => a ≤ b) →
        (s.length % 2 = 1 →
          (compute_disaster_summary m).Median = some (s.getD (s.length / 2) 0)) ∧
        (s ≠ [] → s.length % 2 = 0 →
          (compute_disaster_summary m).Median =
            some ((s.getD (s.length / 2 - 1) 0 + s.getD (s.length / 2) 0) / 2)))) ∧
    ((v.length ≤ 1 → (compute_disaster_summary m).StdDevSq = none) ∧
      (2 ≤ v.length → (compute_disaster_summary m).StdDevSq =
        some (((v.map (fun x => (x - v.sum / (v.length : ℚ)) ^ 2)).sum) /
          ((v.length : ℚ) - 1)))) := by
  have hlen : seriesCount (m.map (fun r => r.disaster_count)) = v.length := by
    rw [hv]
    rfl
  have hcount : seriesCount (m.map (fun r => r.disaster_count)) =
      m.countP (fun r => r.disaster_count.isSome) := by
    unfold seriesCount nonMissing
    rw [List.reduceOption_length_eq, ← List.countP_eq_length_filter, List.countP_map]
    rfl
  have hsum : seriesSum (m.map (fun r => r.disaster_count)) = v.sum := by
    unfold seriesSum
    rw [hv]
  have hCount : (compute_disaster_summary m).Count =
      some ((seriesCount (m.map (fun r => r.disaster_count)) : ℚ)) := rfl
  have hMean : (compute_disaster_summary m).Mean =
      seriesMean (m.map (fun r => r.disaster_count)) := rfl
  have hStd : (compute_disaster_summary m).StdDevSq =
      seriesStdSq (m.map (fun r => r.disaster_count)) := rfl
  have hMin : (compute_disaster_summary m).Min =
      seriesMin (m.map (fun r => r.disaster_count)) := rfl
  have hMed : (compute_disaster_summary m).Median =
      seriesMedian (m.map (fun r => r.disaster_count)) := rfl
  have hMax : (compute_disaster_summary m).Max =
      seriesMax (m.map (fun r => r.disaster_count)) := rfl
  have hSum : (compute_disaster_summary m).Sum =
      some (seriesSum (m.map (fun r => r.disaster_count))) := rfl
  refine ⟨⟨?_, ?_⟩, ⟨?_, ?_, ?_⟩, ⟨?_, ?_, ?_⟩, ⟨?_, ?_, ?_⟩, ⟨?_, ?_⟩⟩
  · rw [hCount, hcount]
  · rw [hSum, hsum]
  · intro hnil
    rw [hMean]
    unfold seriesMean
    rw [if_pos]
    rw [hlen, hnil]
    rfl
  · intro hne
    rw [hMean]
    unfold seriesMean
    rw [if_neg, hsum, hlen]
    rw [hlen]
    exact fun h0 => hne (List.length_eq_zero.mp h0)
  · intro su c me hsu hc hme hcpos
    rw [hSum] at hsu
    rw [hCount] at hc
    rw [hMean] at hme
    unfold seriesMean at hme
    by_cases h0 : seriesCount (m.map (fun r => r.disaster_count)) = 0
    · rw [if_pos h0] at hme
      cases hme
    · rw [if_neg h0] at hme
      have h1 : su = seriesSum (m.map (fun r => r.disaster_count)) :=
        (Option.some.inj hsu).symm
      have h2 : c = ((seriesCount (m.map (fun r => r.disaster_count)) : ℚ)) :=
        (Option.some.inj hc).symm
      have h3 : seriesSum (m.map (fun r => r.disaster_count)) /
          ((seriesCount (m.map (fun r => r.disaster_count)) : ℚ)) = me :=
        Option.some.inj hme
      rw [h1, h2, h3]
  · intro x hx
    rw [hMin] at hx
    unfold seriesMin at hx
    rw [← hv] at hx
    exact min?_spec hx
  · intro x hx
    rw [hMax] at hx
    unfold seriesMax at hx
    rw [← hv] at hx
    exact max?_spec hx
  · intro hne
    constructor
    · rw [hMin]
      unfold seriesMin
      rw [← hv]
      intro h0
      exact hne (List.min?_eq_none_iff.mp h0)
    · rw [hMax]
      unfold seriesMax
      rw [← hv]
      intro h0
      exact hne (List.max?_eq_none_iff.mp h0)
  · rw [hMed]
    unfold seriesMedian
    rw [← hv]
    rw [medianOfSorted_nil_iff]
    constructor
    · intro h0
      have := congrArg List.length h0
      rw [(List.perm_insertionSort _ v).length_eq] at this
      exact List.length_eq_zero.mp this
    · intro h0
      rw [h0]
      rfl
  · intro x hx
    rw [hMed] at hx
    unfold seriesMedian at hx
    rw [← hv] at hx
    have hbet := medianOfSorted_between (List.sorted_insertionSort _ v) hx
    constructor
    · obtain ⟨a, ha, hax⟩ := hbet.1
      exact ⟨a, (List.mem_insertionSort _).mp ha, hax⟩
    · obtain ⟨b, hb, hbx⟩ := hbet.2
      exact ⟨b, (List.mem_insertionSort _).mp hb, hbx⟩
  · intro s hperm hsorted
    have hseq : s = v.insertionSort (fun a b => a ≤ b) :=
      List.eq_of_perm_of_sorted (hperm.trans (List.perm_insertionSort _ v).symm)
        hsorted (List.sorted_insertionSort _ v)
    have hmedS : (compute_disaster_summary m).Median = medianOfSorted s := by
      rw [hMed]
      unfold seriesMedian
      rw [← hv, ← hseq]
    constructor
    · intro hodd
      have h0 : ¬ s.length = 0 := by omega
      rw [hmedS]
      unfold medianOfSorted
      rw [if_neg h0, if_pos hodd]
    · intro hne heven
      have h0 : ¬ s.length = 0 := fun h => hne (List.length_eq_zero.mp h)
      have h1 : ¬ s.length % 2 = 1 := by omega
      rw [hmedS]
      unfold medianOfSorted
      rw [if_neg h0, if_neg h1]
  · intro h1
    rw [hStd]
    unfold seriesStdSq
    rw [if_pos]
    show (nonMissing (m.map (fun r => r.disaster_count))).length ≤ 1
    rw [← hv]
    exact h1
  · intro h2
    rw [hStd]
    unfold seriesStdSq
    rw [if_neg, ← hv]
    · unfold listMean
      rfl
    · show ¬ ((nonMissing (m.map (fun r => r.disaster_count))).length ≤ 1)
      rw [← hv]
      omega

/-- Witness for C3 on a two-row merged table with counts 1 and 3:
Count = 2, Sum = 4 and Median = 2 (the mean of the two middle elements
of the sorted data [1, 3]). -/
theorem compute_disaster_summary_stats_spec_witness :
    (compute_disaster_summary
        [{ year := 2020, tempF := some 59, disaster_count := some 1 },
         { year := 2021, tempF := none, disaster_count := some 3 }]).Count = some 2 ∧
    (compute_disaster_summary
        [{ year := 2020, tempF := some 59, disaster_count := some 1 },
         { year := 2021, tempF := none, disaster_count := some 3 }]).Sum = some 4 ∧
    (compute_disaster_summary
        [{ year := 2020, tempF := some 59, disaster_count := some 1 },
         { year := 2021, tempF := none, disaster_count := some 3 }]).Median = some 2 := by
  have h := compute_disaster_summary_stats_spec
      [{ year := 2020, tempF := some 59, disaster_count := some 1 },
       { year := 2021, tempF := none, disaster_count := some 3 }] [1, 3] (by rfl)
  refine ⟨?_, ?_, ?_⟩
  · rw [h.1.1]
    rfl
  · rw [h.1.2]
    norm_num
  · have hmed := ((h.2.2.2.1).2.2 [1, 3] (List.Perm.refl _)
      (by simp [List.Sorted])).2 (by simp) (by rfl)
    rw [hmed]
    norm_num
